import Mathlib

/-!
Shallow embedding of the forecasting/analytics core of the SEO-Forecaster-Tool
repository (files `src/analysis/seo_analyzer.py` and `src/analysis/forecaster.py`).

Modelling conventions:
* Python floats are modelled as `PyVal`: exact rationals plus the special
  values NaN, +inf, -inf, and a non-numeric object `obj` (used to express the
  "input type mismatch" cases of `safe_div` and the CPC column).  Decimal
  literals of the source (`0.30`, `0.65`, ...) become the corresponding exact
  rationals.
* Operations that can raise a Python exception are modelled in `Except Unit`;
  a surrounding `try/except` becomes a `match` on the `Except` value.
* `pandas` specifics that the code relies on are modelled faithfully:
  `pd.cut` with right-closed bins, and `groupby` over the categorical bucket
  column with its default `observed=False`, which yields a row for *every*
  bucket label, empty buckets included (their mean is NaN, their count 0).
* In-place mutation of the caller's DataFrame (`df['Position_Bucket'] = ...`)
  is modelled by state passing: `calculate_ctr_by_position` and
  `forecast_performance` return the post-call state of the input table.
-/

/-- A Python value as used by the numeric code: a finite float (modelled as an
exact rational), NaN, +inf, -inf, or a non-numeric object. -/
inductive PyVal where
  | num (q : ℚ)
  | nan
  | inf
  | ninf
  | obj
deriving DecidableEq, Repr

namespace PyVal

/-- Model of `pd.isna` on a scalar: true exactly on NaN (no `None` in this model). -/
def pdIsna : PyVal → Bool
  | .nan => true
  | _ => false

/-- Model of `np.isinf` on a scalar; raises `TypeError` on a non-numeric object. -/
def npIsinf : PyVal → Except Unit Bool
  | .obj => .error ()
  | .inf => .ok true
  | .ninf => .ok true
  | _ => .ok false

/-- Python `x == 0` (comparison with a non-number is `False`, never an error). -/
def eqZero : PyVal → Bool
  | .num q => decide (q = 0)
  | _ => false

/-- Python `+` on float values.  `obj` operands would raise; they never reach
an arithmetic operation in the modelled code paths, and are mapped to `obj`. -/
def pfAdd : PyVal → PyVal → PyVal
  | .obj, _ => .obj
  | _, .obj => .obj
  | .nan, _ => .nan
  | _, .nan => .nan
  | .num a, .num b => .num (a + b)
  | .inf, .ninf => .nan
  | .ninf, .inf => .nan
  | .inf, _ => .inf
  | _, .inf => .inf
  | .ninf, _ => .ninf
  | _, .ninf => .ninf

/-- Python `-` on float values. -/
def pfSub : PyVal → PyVal → PyVal
  | .obj, _ => .obj
  | _, .obj => .obj
  | .nan, _ => .nan
  | _, .nan => .nan
  | .num a, .num b => .num (a - b)
  | .inf, .inf => .nan
  | .ninf, .ninf => .nan
  | .inf, _ => .inf
  | _, .inf => .ninf
  | .ninf, _ => .ninf
  | _, .ninf => .inf

/-- Python `*` on float values. -/
def pfMul : PyVal → PyVal → PyVal
  | .obj, _ => .obj
  | _, .obj => .obj
  | .nan, _ => .nan
  | _, .nan => .nan
  | .num a, .num b => .num (a * b)
  | .inf, .num b => if b = 0 then .nan else if b < 0 then .ninf else .inf
  | .num a, .inf => if a = 0 then .nan else if a < 0 then .ninf else .inf
  | .ninf, .num b => if b = 0 then .nan else if b < 0 then .inf else .ninf
  | .num a, .ninf => if a = 0 then .nan else if a < 0 then .inf else .ninf
  | .inf, .inf => .inf
  | .ninf, .ninf => .inf
  | .inf, .ninf => .ninf
  | .ninf, .inf => .ninf

/-- Python `a > b` on float values (any comparison involving NaN is `False`). -/
def pfGt : PyVal → PyVal → Bool
  | .num a, .num b => decide (b < a)
  | .inf, .num _ => true
  | .inf, .ninf => true
  | .num _, .ninf => true
  | _, _ => false

/-- Python `max(a, b)`: the second argument wins only when strictly greater. -/
def pyMax (a b : PyVal) : PyVal := if pfGt b a then b else a

/-- Python `/` on float values; `ZeroDivisionError` on a zero denominator and
`TypeError` on a non-numeric operand are modelled as `.error`. -/
def pyDiv (a b : PyVal) : Except Unit PyVal :=
  match a, b with
  | .obj, _ => .error ()
  | _, .obj => .error ()
  | _, .num q =>
    if q = 0 then .error ()
    else
      match a with
      | .num p => .ok (.num (p / q))
      | .nan => .ok .nan
      | .inf => .ok (if q < 0 then .ninf else .inf)
      | .ninf => .ok (if q < 0 then .inf else .ninf)
      | .obj => .error ()
  | .nan, _ => .ok .nan
  | _, .nan => .ok .nan
  | .num _, .inf => .ok (.num 0)
  | .num _, .ninf => .ok (.num 0)
  | _, _ => .ok .nan

/-- The rational payload of a finite value (0 for the special values; only
consulted where the value is known to be finite). -/
def toQ : PyVal → ℚ
  | .num q => q
  | _ => 0

end PyVal

/-- Round-half-to-even to an integer, the rounding mode of Python's `round`. -/
def roundHalfEven (q : ℚ) : ℤ :=
  if q - ⌊q⌋ < 1 / 2 then ⌊q⌋
  else if 1 / 2 < q - ⌊q⌋ then ⌊q⌋ + 1
  else if ⌊q⌋ % 2 = 0 then ⌊q⌋ else ⌊q⌋ + 1

/-- Python `round(q, d)` for a finite value: round-half-to-even at `d` decimal
digits. -/
def pyRoundQ (q : ℚ) (d : ℕ) : ℚ :=
  (roundHalfEven (q * 10 ^ d) : ℚ) / 10 ^ d

/-- Python `round(x, d)` on a float value: NaN and the infinities pass through. -/
def pfRound (x : PyVal) (d : ℕ) : PyVal :=
  match x with
  | .num q => .num (pyRoundQ q d)
  | v => v

/-- Python `int(q)` for a finite float: truncation toward zero. -/
def pyInt (q : ℚ) : ℤ := if 0 ≤ q then ⌊q⌋ else ⌈q⌉

/-- Model of `pandas.Series.sum()` over a float column with its default `skipna=True`:
NaN entries are skipped, an empty or all-NaN column sums to 0.  (Infinite
entries never occur in the columns this is applied to.) -/
def sumSkipNa (l : List PyVal) : ℚ :=
  (l.filterMap (fun v => match v with | .num q => some q | _ => none)).sum

/-- The module-level `safe_div` of `forecaster.py` / `seo_analyzer.py`:

    def safe_div(numerator, denominator, fallback=0):
        try:
            if denominator == 0 or pd.isna(denominator) or np.isinf(denominator):
                return fallback
            result = numerator / denominator
            if np.isinf(result) or pd.isna(result):
                return fallback
            return result
        except (ZeroDivisionError, TypeError, ValueError):
            return fallback
-/
def safe_div (n d f : PyVal) : PyVal :=
  if PyVal.eqZero d then f
  else if PyVal.pdIsna d then f
  else
    match PyVal.npIsinf d with
    | .error _ => f
    | .ok true => f
    | .ok false =>
      match PyVal.pyDiv n d with
      | .error _ => f
      | .ok r =>
        match PyVal.npIsinf r with
        | .error _ => f
        | .ok true => f
        | .ok false => if PyVal.pdIsna r then f else r

/-- The `safe_div` operation restricted to finite rational arguments (the only values that
occur at the aggregate-metric call sites): the denominator-zero guard is the
only live branch. -/
def safe_divQ (n d f : ℚ) : ℚ := if d = 0 then f else n / d

/-- One row of the reconciled keyword table, with the canonical fields the
analysis core consumes (§6 of the spec): `Keyword`, `Current Position`,
`Search Volume`, `CTR`. -/
structure KRow where
  keyword : String
  currentPosition : ℚ
  searchVolume : ℚ
  ctr : ℚ
deriving DecidableEq, Repr

/-- The fixed position buckets of `pd.cut(df['Current Position'],
bins=[0,1,2,3,4,5,6,7,8,9,10,15,20,30,50,100], labels=[...])`. -/
inductive Bucket where
  | b1 | b2 | b3 | b4 | b5 | b6 | b7 | b8 | b9 | b10
  | b11_15 | b16_20 | b21_30 | b31_50 | b51_100
deriving DecidableEq, Repr

/-- The bucket labels in their categorical (declaration) order. -/
def allBuckets : List Bucket :=
  [.b1, .b2, .b3, .b4, .b5, .b6, .b7, .b8, .b9, .b10,
   .b11_15, .b16_20, .b21_30, .b31_50, .b51_100]

/-- The `pd.cut` bucket assignment: right-closed bins `(0,1], (1,2], ..., (50,100]`;
positions outside `(0,100]` fall into no bucket (NaN label). -/
def cutBucket (p : ℚ) : Option Bucket :=
  if p ≤ 0 then none
  else if p ≤ 1 then some .b1
  else if p ≤ 2 then some .b2
  else if p ≤ 3 then some .b3
  else if p ≤ 4 then some .b4
  else if p ≤ 5 then some .b5
  else if p ≤ 6 then some .b6
  else if p ≤ 7 then some .b7
  else if p ≤ 8 then some .b8
  else if p ≤ 9 then some .b9
  else if p ≤ 10 then some .b10
  else if p ≤ 15 then some .b11_15
  else if p ≤ 20 then some .b16_20
  else if p ≤ 30 then some .b21_30
  else if p ≤ 50 then some .b31_50
  else if p ≤ 100 then some .b51_100
  else none

/-- The `if/elif` ladder of `get_ctr_for_position` that picks the bucket label
for a lookup position (total: everything above 50 maps to `51-100`). -/
def lookupBucket (p : ℚ) : Bucket :=
  if p ≤ 1 then .b1
  else if p ≤ 2 then .b2
  else if p ≤ 3 then .b3
  else if p ≤ 4 then .b4
  else if p ≤ 5 then .b5
  else if p ≤ 6 then .b6
  else if p ≤ 7 then .b7
  else if p ≤ 8 then .b8
  else if p ≤ 9 then .b9
  else if p ≤ 10 then .b10
  else if p ≤ 15 then .b11_15
  else if p ≤ 20 then .b16_20
  else if p ≤ 30 then .b21_30
  else if p ≤ 50 then .b31_50
  else .b51_100

/-- The reconciled DataFrame: its rows, the optional `CPC` column (absent or a
per-row list of float values), and the two helper columns that
`calculate_ctr_by_position` writes into the caller's frame (absent until that
call mutates the table). -/
structure DataFrame where
  rows : List KRow
  cpc : Option (List PyVal)
  positionBucket : Option (List (Option Bucket))
  weightedCtr : Option (List ℚ)
deriving DecidableEq, Repr

/-- The per-bucket row of the `ctr_stats` frame that `calculate_ctr_by_position`
builds.  Only the columns the claims and the lookup consult are retained:
`CTR_Mean` (NaN for an empty bucket), `Count`, and `CTR_Weighted`.  The
`median/std/min/max` columns are carried by the source but never read
afterwards (the sample std-dev is irrational-valued and is not representable
here); no claim mentions their values. -/
structure BucketStats where
  mean : PyVal
  count : ℕ
  weighted : ℚ
deriving DecidableEq, Repr

/-- The rows of the table whose position falls in bucket `b`. -/
def bucketMembers (rows : List KRow) (b : Bucket) : List KRow :=
  rows.filter (fun r => cutBucket r.currentPosition = some b)

/-- The aggregated statistics of one bucket: `mean` is the pandas group mean of
`CTR` rounded to 4 decimals (NaN for an empty group), `count` the group size,
and `weighted` the volume-weighted mean
`safe_div(sum(ctr*volume), sum(volume), 0)` rounded to 4 decimals. -/
def bucketStats (rows : List KRow) (b : Bucket) : BucketStats :=
  let ms := bucketMembers rows b
  { mean :=
      if ms.length = 0 then .nan
      else .num (pyRoundQ ((ms.map (fun r => r.ctr)).sum / ms.length) 4)
    count := ms.length
    weighted :=
      pyRoundQ
        (safe_divQ ((ms.map (fun r => r.ctr * r.searchVolume)).sum)
          ((ms.map (fun r => r.searchVolume)).sum) 0) 4 }

/-- Model of `SEOAnalyzer.calculate_ctr_by_position`.  It writes the helper columns
`Position_Bucket` and `Weighted_CTR` into the caller's DataFrame (returned as
the first component: the post-call state of the input), and groups by the
categorical bucket column.  With the pandas default `observed=False` the
grouped frame has one row per bucket label — empty buckets included. -/
def calculate_ctr_by_position (df : DataFrame) :
    DataFrame × List (Bucket × BucketStats) :=
  let df' :=
    { df with
      positionBucket := some (df.rows.map (fun r => cutBucket r.currentPosition))
      weightedCtr := some (df.rows.map (fun r => r.ctr * r.searchVolume)) }
  (df', allBuckets.map (fun b => (b, bucketStats df.rows b)))

/-- The built-in default CTR table of `get_ctr_for_position`, keyed by
canonical positions, in dict insertion order. -/
def defaultCtrTable : List (ℚ × ℚ) :=
  [(1, 315/1000), (2, 242/1000), (3, 185/1000), (4, 142/1000), (5, 109/1000),
   (6, 84/1000), (7, 65/1000), (8, 50/1000), (9, 39/1000), (10, 30/1000),
   (11, 23/1000), (12, 18/1000), (13, 14/1000), (14, 11/1000), (15, 8/1000),
   (20, 3/1000), (30, 1/1000), (50, 5/10000), (100, 1/10000)]

/-- Model of `min(default_ctr.keys(), key=lambda x: abs(x - position))` followed by the
dict lookup: Python's `min` keeps the first minimum in iteration order, so ties
break toward the lower canonical position. -/
def defaultCtr (p : ℚ) : ℚ :=
  (defaultCtrTable.foldl
    (fun best e => if |e.1 - p| < |best.1 - p| then e else best)
    (1, 315/1000)).2

/-- Model of `SEOAnalyzer.get_ctr_for_position`: when no curve has been built
(`self.ctr_by_position is None`), look up the default table at the closest
canonical position; otherwise read the covering bucket's `CTR_Mean` from the
curve, falling back to `0.01` when the bucket has no row in the curve. -/
def get_ctr_for_position (curve : Option (List (Bucket × BucketStats)))
    (position : ℚ) : PyVal :=
  match curve with
  | none => .num (defaultCtr position)
  | some stats =>
    match stats.find? (fun e => decide (e.1 = lookupBucket position)) with
    | some e => e.2.mean
    | none => .num (1/100)

/-- The `improvement_scaling` dict set in `SEOForecaster.__init__`. -/
def improvement_scaling : List (ℕ × ℚ) :=
  [(90, 30/100), (180, 65/100), (360, 1)]

/-- Model of `self.improvement_scaling.get(days, days / 360)`. -/
def improvementScalingGet (days : ℕ) : ℚ :=
  match improvement_scaling.find? (fun e => decide (e.1 = days)) with
  | some e => e.2
  | none => (days : ℚ) / 360

/-- Model of `actual_improvement = avg_improvement * time_scaling` (forecast step 2). -/
def actualImprovement (days : ℕ) (avg_improvement : ℚ) : ℚ :=
  avg_improvement * improvementScalingGet days

/-- The damped position improvement of one keyword: `min(improvement_factor,
current_pos - 1)` scaled by the position-tier factor (`0.4` for positions ≤ 3,
`0.7` for positions ≤ 10, `1.0` otherwise). -/
def dampedImprovement (improvement_factor pos : ℚ) : ℚ :=
  let m := min improvement_factor (pos - 1)
  if pos ≤ 3 then m * (4/10)
  else if pos ≤ 10 then m * (7/10)
  else m * 1

/-- Model of `projected_pos = max(1, current_pos - max_improvement)`. -/
def projectedPosition (improvement_factor pos : ℚ) : ℚ :=
  max 1 (pos - dampedImprovement improvement_factor pos)

/-- One row of the `keyword_forecasts` frame, with the fields
`_forecast_keywords` stores. -/
structure ForecastRow where
  keyword : String
  currentPosition : ℚ
  projectedPosition : ℚ
  searchVolume : ℚ
  currentCtr : PyVal
  projectedCtr : PyVal
  currentClicks : PyVal
  projectedClicks : PyVal
  clickIncrease : PyVal
  improvementPct : PyVal
deriving DecidableEq, Repr

/-- The loop body of `SEOForecaster._forecast_keywords` for one input row. -/
def forecastKeywordRow (stats : List (Bucket × BucketStats))
    (improvement_factor : ℚ) (r : KRow) : ForecastRow :=
  let currentPos := r.currentPosition
  let projectedPos := projectedPosition improvement_factor currentPos
  let currentCtr := get_ctr_for_position (some stats) currentPos
  let projectedCtr := get_ctr_for_position (some stats) projectedPos
  let currentClicks := PyVal.pfMul (.num r.searchVolume) currentCtr
  let projectedClicks := PyVal.pfMul (.num r.searchVolume) projectedCtr
  let clickIncrease := PyVal.pfSub projectedClicks currentClicks
  let improvementPct :=
    PyVal.pfMul
      (safe_div clickIncrease (PyVal.pyMax currentClicks (.num 1)) (.num 0))
      (.num 100)
  { keyword := r.keyword
    currentPosition := currentPos
    projectedPosition := pyRoundQ projectedPos 1
    searchVolume := r.searchVolume
    currentCtr := pfRound currentCtr 4
    projectedCtr := pfRound projectedCtr 4
    currentClicks := pfRound currentClicks 0
    projectedClicks := pfRound projectedClicks 0
    clickIncrease := pfRound clickIncrease 0
    improvementPct := pfRound improvementPct 1 }

/-- Model of `SEOForecaster._forecast_keywords`: one forecast row per input row. -/
def forecast_keywords (df : DataFrame) (improvement_factor : ℚ)
    (stats : List (Bucket × BucketStats)) : List ForecastRow :=
  df.rows.map (forecastKeywordRow stats improvement_factor)

/-- The aggregate block returned by `SEOForecaster._calculate_aggregate_metrics`. -/
structure AggMetrics where
  total_current_clicks : ℤ
  total_projected_clicks : ℤ
  clicks_increase_pct : ℚ
  keywords_top_10 : ℕ
  top10_increase : ℤ
  value_increase_pct : ℚ
deriving DecidableEq, Repr

/-- Model of `SEOForecaster._calculate_aggregate_metrics`: column sums of the
already-rounded per-row click values (pandas `sum` skips NaN), `int()` casts,
the safe-divided percentage, and the top-10 counts (the projected count uses
the stored, 1-decimal-rounded projected position). -/
def calculate_aggregate_metrics (kf : List ForecastRow) : AggMetrics :=
  let total_current := sumSkipNa (kf.map (fun r => r.currentClicks))
  let total_projected := sumSkipNa (kf.map (fun r => r.projectedClicks))
  let clicks_increase_pct :=
    safe_divQ (total_projected - total_current) (max total_current 1) 0 * 100
  let current_top_10 := (kf.filter (fun r => decide (r.currentPosition ≤ 10))).length
  let projected_top_10 := (kf.filter (fun r => decide (r.projectedPosition ≤ 10))).length
  { total_current_clicks := pyInt total_current
    total_projected_clicks := pyInt total_projected
    clicks_increase_pct := pyRoundQ clicks_increase_pct 1
    keywords_top_10 := projected_top_10
    top10_increase := (projected_top_10 : ℤ) - (current_top_10 : ℤ)
    value_increase_pct := pyRoundQ (clicks_increase_pct * (95/100)) 1 }

/-- Model of `'CPC' in original_df.columns and not original_df['CPC'].isna().all()`:
whether the table carries a genuine CPC column (an all-NaN or absent column
does not count; pandas `all()` over an empty column is `True`). -/
def hasRealCpc (df : DataFrame) : Bool :=
  match df.cpc with
  | none => false
  | some col => !(col.all (fun v => PyVal.pdIsna v))

/-- Model of `original_df.set_index('Keyword')['CPC'].to_dict()` as an association list
in row order (a later duplicate keyword overwrites an earlier one). -/
def cpcMap (df : DataFrame) : List (String × PyVal) :=
  match df.cpc with
  | none => []
  | some col => (df.rows.map (fun r => r.keyword)).zip col

/-- Model of `dict.get(key, default)` for a dict built by in-order insertion: the last
binding of a key wins. -/
def dictGet (m : List (String × PyVal)) (k : String) (d : PyVal) : PyVal :=
  match m.reverse.find? (fun e => decide (e.1 = k)) with
  | some e => e.2
  | none => d

/-- The NaN/Infinity guard of `_calculate_traffic_value`:
`if pd.isna(v) or np.isinf(v): v = repl` — short-circuit, so `pd.isna` is
checked first and `np.isinf` (which raises on a non-number) only afterwards. -/
def sanitizePy (v repl : PyVal) : Except Unit PyVal :=
  if PyVal.pdIsna v then .ok repl
  else
    match PyVal.npIsinf v with
    | .error e => .error e
    | .ok true => .ok repl
    | .ok false => .ok v

/-- The volume-tiered CPC schedule: the thresholds of `cpc_mapping` scanned
from highest to lowest, first match wins, default `0.50`. -/
def tierCpc (volume : ℚ) : ℚ :=
  if 50000 ≤ volume then 8
  else if 10000 ≤ volume then 5
  else if 1000 ≤ volume then 25/10
  else if 100 ≤ volume then 12/10
  else if 0 ≤ volume then 5/10
  else 5/10

/-- The accumulation loop of the real-CPC branch of
`_calculate_traffic_value`. -/
def tvLoopReal (m : List (String × PyVal)) :
    List ForecastRow → PyVal → Except Unit PyVal
  | [], acc => .ok acc
  | r :: rest, acc =>
    match sanitizePy (dictGet m r.keyword (.num (5/10))) (.num (5/10)) with
    | .error e => .error e
    | .ok cpc =>
      match sanitizePy r.projectedClicks (.num 0) with
      | .error e => .error e
      | .ok clicks => tvLoopReal m rest (PyVal.pfAdd acc (PyVal.pfMul clicks cpc))

/-- The accumulation loop of the volume-tier branch.  The row's search volume
is a finite rational in this model, so its NaN/Infinity guard is an identity
and the tier schedule reads it directly. -/
def tvLoopVol : List ForecastRow → PyVal → Except Unit PyVal
  | [], acc => .ok acc
  | r :: rest, acc =>
    match sanitizePy r.projectedClicks (.num 0) with
    | .error e => .error e
    | .ok clicks =>
      tvLoopVol rest (PyVal.pfAdd acc (PyVal.pfMul clicks (.num (tierCpc r.searchVolume))))

/-- The body of the `try:` block of `_calculate_traffic_value`, ending with the
final `if pd.isna(total_value) or np.isinf(total_value): total_value = 0` guard
and `round(total_value, 0)`. -/
def trafficValueInner (kf : List ForecastRow) (odf : DataFrame) :
    Except Unit PyVal :=
  let loopResult :=
    if hasRealCpc odf then tvLoopReal (cpcMap odf) kf (.num 0)
    else tvLoopVol kf (.num 0)
  match loopResult with
  | .error e => .error e
  | .ok total =>
    match PyVal.npIsinf total with
    | .error e => .error e
    | .ok ti =>
      let total := if PyVal.pdIsna total || ti then .num 0 else total
      .ok (pfRound total 0)

/-- Model of `SEOForecaster._calculate_traffic_value`: the whole body runs inside
`try: ... except Exception: return 0.0`. -/
def calculate_traffic_value (kf : List ForecastRow) (odf : DataFrame) : PyVal :=
  match trafficValueInner kf odf with
  | .error _ => .num 0
  | .ok v => v

/-- The dictionary returned by `SEOForecaster.forecast_performance`. -/
structure ForecastResult where
  keyword_forecasts : List ForecastRow
  total_projected_clicks : ℤ
  total_current_clicks : ℤ
  clicks_increase_pct : ℚ
  traffic_value : PyVal
  keywords_top_10 : ℕ
  top10_increase : ℤ
  value_increase_pct : ℚ
deriving DecidableEq, Repr

/-- Model of `SEOForecaster.forecast_performance(df, days, avg_improvement)`.

The first component is the post-call state of the caller's DataFrame (the
curve build writes two helper columns into it).  On an empty table the
aggregate step raises a `KeyError` (`pd.DataFrame([])` has no
`'Current Clicks'` column) which the surrounding `except` logs and re-raises:
that propagated exception is the `.error` case.  The mutation of the input has
happened by then regardless. -/
def forecast_performance (df : DataFrame) (days : ℕ) (avg_improvement : ℚ) :
    DataFrame × Except Unit ForecastResult :=
  let built := calculate_ctr_by_position df
  let actual_improvement := actualImprovement days avg_improvement
  let kf := forecast_keywords df actual_improvement built.2
  if kf.isEmpty then (built.1, .error ())
  else
    let totals := calculate_aggregate_metrics kf
    let traffic_value := calculate_traffic_value kf built.1
    (built.1,
      .ok
        { keyword_forecasts := kf
          total_projected_clicks := totals.total_projected_clicks
          total_current_clicks := totals.total_current_clicks
          clicks_increase_pct := totals.clicks_increase_pct
          traffic_value := traffic_value
          keywords_top_10 := totals.keywords_top_10
          top10_increase := totals.top10_increase
          value_increase_pct := totals.value_increase_pct })

/-- The claim-side description of the traffic-value sanitizers: a finite value
passes through, anything else (NaN, ±inf) is replaced by `repl`.  Used to
state what `_calculate_traffic_value` computes. -/
def replaceInvalid (v : PyVal) (repl : ℚ) : ℚ :=
  match v with
  | .num q => q
  | _ => repl

/-- A one-row table whose single keyword has CTR 0 (zero clicks): a legal
input under the data contract (`ctr ∈ [0,1]`). -/
def dfZeroCtr : DataFrame := ⟨[⟨"kw", 1, 0, 0⟩], none, none, none⟩

/-- A one-row table with an ordinary record at position 5. -/
def dfOneRow : DataFrame := ⟨[⟨"kw", 5, 100, 1/10⟩], none, none, none⟩

/-- A two-row table whose per-keyword current clicks are `1 * 0.3 = 0.3` each:
each rounds to 0, while the exact per-keyword products sum to `0.6`. -/
def dfRoundGap : DataFrame :=
  ⟨[⟨"a", 1, 1, 3/10⟩, ⟨"b", 1, 1, 3/10⟩], none, none, none⟩

/-- A table carrying a genuine CPC column: keyword `a` has NaN CPC, keyword
`b` has CPC 2. -/
def dfCpc : DataFrame :=
  ⟨[⟨"a", 5, 100, 1/10⟩, ⟨"b", 5, 100, 1/10⟩], some [.nan, .num 2],
   none, none⟩

/-- A forecast row whose projected clicks are NaN. -/
def frowNanClicks : ForecastRow :=
  ⟨"a", 5, 5, 100, .num 0, .num 0, .num 0, .nan, .num 0, .num 0⟩

/-- A forecast row with 3 projected clicks. -/
def frowThreeClicks : ForecastRow :=
  ⟨"b", 5, 5, 100, .num 0, .num 0, .num 0, .num 3, .num 0, .num 0⟩

/-! ## Helper lemmas -/

/-- Coherence of the restriction: on finite values `safe_div` computes
`safe_divQ`. -/
theorem safe_div_num_num (a b f : ℚ) :
    safe_div (.num a) (.num b) (.num f) = .num (safe_divQ a b f) := by
  by_cases hb : b = 0 <;>
    simp [safe_div, safe_divQ, PyVal.eqZero, PyVal.pdIsna, PyVal.npIsinf,
      PyVal.pyDiv, hb]

theorem floor_le_roundHalfEven (q : ℚ) : ⌊q⌋ ≤ roundHalfEven q := by
  unfold roundHalfEven
  split
  · exact le_refl _
  · split
    · exact le_of_lt (lt_add_one _)
    · split
      · exact le_refl _
      · exact le_of_lt (lt_add_one _)

theorem roundHalfEven_le {q : ℚ} {b : ℤ} (h : q ≤ (b : ℚ)) :
    roundHalfEven q ≤ b := by
  have hfb : ⌊q⌋ ≤ b := by
    have h1 := Int.floor_mono h
    simpa using h1
  unfold roundHalfEven
  split
  · exact hfb
  · rename_i hhalf
    push_neg at hhalf
    have hlt : (⌊q⌋ : ℚ) < q := by linarith
    have hltb : ⌊q⌋ < b := by exact_mod_cast hlt.trans_le h
    split
    · omega
    · split <;> omega

theorem le_roundHalfEven {q : ℚ} {a : ℤ} (h : (a : ℚ) ≤ q) :
    a ≤ roundHalfEven q :=
  (Int.le_floor.mpr h).trans (floor_le_roundHalfEven q)

/-- The function `pyRoundQ` maps `[0, 1]` into `[0, 1]` (for any decimal-digit count). -/
theorem pyRoundQ_mem_unit {q : ℚ} (d : ℕ) (h0 : 0 ≤ q) (h1 : q ≤ 1) :
    0 ≤ pyRoundQ q d ∧ pyRoundQ q d ≤ 1 := by
  have hp : (0 : ℚ) < 10 ^ d := by positivity
  have hlow : (0 : ℤ) ≤ roundHalfEven (q * 10 ^ d) := by
    apply le_roundHalfEven
    push_cast
    positivity
  have hup : roundHalfEven (q * 10 ^ d) ≤ (10 ^ d : ℤ) := by
    apply roundHalfEven_le
    push_cast
    nlinarith
  constructor
  · unfold pyRoundQ
    apply div_nonneg _ (le_of_lt hp)
    exact_mod_cast hlow
  · unfold pyRoundQ
    rw [div_le_one hp]
    exact_mod_cast hup

theorem list_sum_nonneg {l : List ℚ} (h : ∀ x ∈ l, 0 ≤ x) : 0 ≤ l.sum := by
  induction l with
  | nil => simp
  | cons a t ih =>
    simp only [List.sum_cons]
    have ha := h a (List.mem_cons_self a t)
    have ht := ih (fun x hx => h x (List.mem_cons_of_mem a hx))
    linarith

theorem list_sum_le_length {l : List ℚ} (h : ∀ x ∈ l, x ≤ 1) :
    l.sum ≤ (l.length : ℚ) := by
  induction l with
  | nil => simp
  | cons a t ih =>
    simp only [List.sum_cons, List.length_cons]
    have ha := h a (List.mem_cons_self a t)
    have ht := ih (fun x hx => h x (List.mem_cons_of_mem a hx))
    push_cast
    linarith

/-- The first-argmin fold of `defaultCtr` always returns its seed or a list
element. -/
theorem foldl_pick_mem (p : ℚ) :
    ∀ (l : List (ℚ × ℚ)) (init : ℚ × ℚ),
      l.foldl (fun best e => if |e.1 - p| < |best.1 - p| then e else best) init
        ∈ init :: l := by
  intro l
  induction l with
  | nil => intro init; simp
  | cons a t ih =>
    intro init
    simp only [List.foldl_cons]
    have h := ih (if |a.1 - p| < |init.1 - p| then a else init)
    rcases List.mem_cons.mp h with h1 | h2
    · rw [h1]
      split
      · exact List.mem_cons_of_mem _ (List.mem_cons_self _ _)
      · exact List.mem_cons_self _ _
    · exact List.mem_cons_of_mem _ (List.mem_cons_of_mem _ h2)

/-- Every value of the built-in default CTR table lies in `(0, 1]`. -/
theorem defaultCtr_mem_Ioc (p : ℚ) : 0 < defaultCtr p ∧ defaultCtr p ≤ 1 := by
  have h := foldl_pick_mem p defaultCtrTable (1, 315/1000)
  have hall :
      ∀ e ∈ ((1, 315/1000) : ℚ × ℚ) :: defaultCtrTable, 0 < e.2 ∧ e.2 ≤ 1 := by
    intro e he
    simp only [defaultCtrTable, List.mem_cons, List.not_mem_nil, or_false] at he
    rcases he with h1 | h1 | h1 | h1 | h1 | h1 | h1 | h1 | h1 | h1 | h1 | h1 |
      h1 | h1 | h1 | h1 | h1 | h1 | h1 | h1 <;> subst h1 <;> norm_num
  exact hall _ h

/-- Finding a bucket's row in the built curve: with `observed=False` every
label has exactly one row, carrying that bucket's statistics. -/
theorem curve_find? (rows : List KRow) (b0 : Bucket) :
    (allBuckets.map (fun b => (b, bucketStats rows b))).find?
      (fun e => decide (e.1 = b0)) = some (b0, bucketStats rows b0) := by
  cases b0 <;> rfl

/-- Lookup against a curve built from `rows` returns the covering bucket's
`CTR_Mean`. -/
theorem get_ctr_built (df : DataFrame) (p : ℚ) :
    get_ctr_for_position (some (calculate_ctr_by_position df).2) p
      = (bucketStats df.rows (lookupBucket p)).mean := by
  simp only [get_ctr_for_position, calculate_ctr_by_position, curve_find?]

/-- For a horizon that is none of the three dict keys, `dict.get` falls back to
`days / 360`. -/
theorem improvementScalingGet_noncanonical {d : ℕ} (h90 : d ≠ 90)
    (h180 : d ≠ 180) (h360 : d ≠ 360) :
    improvementScalingGet d = (d : ℚ) / 360 := by
  have e90 : ((90 : ℕ) = d) = False := by simp [Ne.symm h90]
  have e180 : ((180 : ℕ) = d) = False := by simp [Ne.symm h180]
  have e360 : ((360 : ℕ) = d) = False := by simp [Ne.symm h360]
  simp [improvementScalingGet, improvement_scaling, List.find?, e90, e180, e360]

/-! ## Claim theorems -/

/-- C2 (counterexample): the time-scaling function is not monotonically
increasing over all positive horizons: `scaling(90) = 0.30` while
`scaling(91) = 91/360 ≈ 0.253`, so the pair `h1 = 90 < h2 = 91` violates
`scaling(h1) ≤ scaling(h2)`. -/
theorem c2_scaling_counterexample :
    (90 : ℕ) < 91 ∧ ¬ improvementScalingGet 90 ≤ improvementScalingGet 91 := by
  constructor
  · norm_num
  · have h90 : improvementScalingGet 90 = 30/100 := rfl
    have h91 : improvementScalingGet 91 = (91 : ℚ) / 360 :=
      improvementScalingGet_noncanonical (by norm_num) (by norm_num) (by norm_num)
    rw [h90, h91]
    norm_num

/-- C2 (amended): the scaling function is monotone on the canonical horizons
(`scaling(90) < scaling(180) < scaling(360)`) and monotone across any two
non-canonical horizons (there it is `h/360`); it is not monotone between a
canonical and a nearby non-canonical horizon. -/
theorem c2_scaling_amended :
    (improvementScalingGet 90 < improvementScalingGet 180 ∧
     improvementScalingGet 180 < improvementScalingGet 360) ∧
    (∀ d1 d2 : ℕ, d1 ≠ 90 → d1 ≠ 180 → d1 ≠ 360 →
      d2 ≠ 90 → d2 ≠ 180 → d2 ≠ 360 → d1 ≤ d2 →
      improvementScalingGet d1 ≤ improvementScalingGet d2) := by
  constructor
  · have h90 : improvementScalingGet 90 = 30/100 := rfl
    have h180 : improvementScalingGet 180 = 65/100 := rfl
    have h360 : improvementScalingGet 360 = 1 := rfl
    rw [h90, h180, h360]
    norm_num
  · intro d1 d2 a1 a2 a3 b1 b2 b3 hle
    rw [improvementScalingGet_noncanonical a1 a2 a3,
      improvementScalingGet_noncanonical b1 b2 b3]
    have hc : (d1 : ℚ) ≤ (d2 : ℚ) := by exact_mod_cast hle
    have h360 : (0 : ℚ) < 360 := by norm_num
    exact (div_le_div_iff_of_pos_right h360).mpr hc

/-- C2 (witness for the amended theorem): the canonical chain and one concrete
non-canonical pair. -/
theorem c2_scaling_amended_witness :
    improvementScalingGet 90 < improvementScalingGet 180 ∧
    improvementScalingGet 100 ≤ improvementScalingGet 200 :=
  ⟨c2_scaling_amended.1.1,
   c2_scaling_amended.2 100 200 (by norm_num) (by norm_num) (by norm_num)
     (by norm_num) (by norm_num) (by norm_num) (by norm_num)⟩

/-- C3: `forecast_performance` computes
`scaled_improvement = avg_improvement * scaling(horizon_days)` with
`scaling(90) = 0.30`, `scaling(180) = 0.65`, `scaling(360) = 1.0`, and
`scaling(h) = h/360` for every other horizon. -/
theorem c3_time_scaling :
    improvementScalingGet 90 = 30/100 ∧
    improvementScalingGet 180 = 65/100 ∧
    improvementScalingGet 360 = 1 ∧
    (∀ d : ℕ, d ≠ 90 → d ≠ 180 → d ≠ 360 →
      improvementScalingGet d = (d : ℚ) / 360) ∧
    (∀ (d : ℕ) (avg : ℚ),
      actualImprovement d avg = avg * improvementScalingGet d) :=
  ⟨rfl, rfl, rfl,
   fun _ h90 h180 h360 => improvementScalingGet_noncanonical h90 h180 h360,
   fun _ _ => rfl⟩

/-- C3 (witness): concrete instances, including a non-canonical horizon. -/
theorem c3_time_scaling_witness :
    improvementScalingGet 90 = 30/100 ∧
    improvementScalingGet 100 = (100 : ℚ) / 360 ∧
    actualImprovement 90 10 = 10 * improvementScalingGet 90 :=
  ⟨c3_time_scaling.1,
   c3_time_scaling.2.2.2.1 100 (by norm_num) (by norm_num) (by norm_num),
   c3_time_scaling.2.2.2.2 90 10⟩

/-- C4: the per-keyword projection computes
`raw_improvement = min(scaled_improvement, current_position - 1)`, damps it by
`0.4` when `current_position ≤ 3`, by `0.7` when `3 < current_position ≤ 10`,
by `1.0` otherwise, and sets
`projected_position = max(1, current_position - damped_improvement)`; the
stored row keeps that value rounded to one decimal, and the position floor
`projected_position ≥ 1` holds for all inputs. -/
theorem c4_projection :
    (∀ imp pos : ℚ, 0 ≤ imp → 1 ≤ pos →
      (pos ≤ 3 →
        projectedPosition imp pos = max 1 (pos - min imp (pos - 1) * (4/10))) ∧
      (3 < pos → pos ≤ 10 →
        projectedPosition imp pos = max 1 (pos - min imp (pos - 1) * (7/10))) ∧
      (10 < pos →
        projectedPosition imp pos = max 1 (pos - min imp (pos - 1) * 1))) ∧
    (∀ (s : List (Bucket × BucketStats)) (imp : ℚ) (r : KRow),
      (forecastKeywordRow s imp r).projectedPosition
        = pyRoundQ (projectedPosition imp r.currentPosition) 1) ∧
    (∀ imp pos : ℚ, 1 ≤ projectedPosition imp pos) := by
  refine ⟨?_, ?_, ?_⟩
  · intro imp pos _ _
    refine ⟨?_, ?_, ?_⟩
    · intro h3
      simp [projectedPosition, dampedImprovement, h3]
    · intro h3 h10
      rw [projectedPosition, dampedImprovement]
      rw [if_neg (not_le.mpr h3), if_pos h10]
    · intro h10
      rw [projectedPosition, dampedImprovement]
      rw [if_neg (by linarith : ¬ pos ≤ 3), if_neg (not_le.mpr h10)]
  · intro s imp r
    rfl
  · intro imp pos
    exact le_max_left 1 _

/-- C4 (witness): the spec's own scenario — position 8.5 in the 4–10 tier with
scaled improvement 10 projects to `max(1, 8.5 - 7.5*0.7) = 3.25`. -/
theorem c4_projection_witness :
    projectedPosition 10 (17/2)
        = max 1 ((17/2) - min 10 ((17/2) - 1) * (7/10)) ∧
    1 ≤ projectedPosition 10 (17/2) := by
  have h := c4_projection
  exact ⟨(h.1 10 (17/2) (by norm_num) (by norm_num)).2.1 (by norm_num)
      (by norm_num),
    h.2.2 10 (17/2)⟩

/-- C5: `safe_div` returns the fallback whenever the denominator is zero, NaN,
or infinite, or the numerator makes the mathematical result NaN or infinite
(NaN or infinite numerator over a finite denominator), and returns
`numerator/denominator` otherwise; a non-numeric operand on either side (the
`TypeError` path) also yields the fallback rather than an exception. -/
theorem c5_safe_div :
    ∀ (n d f : PyVal) (a b : ℚ),
      safe_div n (.num 0) f = f ∧
      safe_div n .nan f = f ∧
      safe_div n .inf f = f ∧
      safe_div n .ninf f = f ∧
      safe_div n .obj f = f ∧
      safe_div .obj d f = f ∧
      safe_div .nan (.num b) f = f ∧
      safe_div .inf (.num b) f = f ∧
      safe_div .ninf (.num b) f = f ∧
      (b ≠ 0 → safe_div (.num a) (.num b) f = .num (a / b)) := by
  intro n d f a b
  refine ⟨?_, ?_, ?_, ?_, ?_, ?_, ?_, ?_, ?_, ?_⟩
  · simp [safe_div, PyVal.eqZero]
  · simp [safe_div, PyVal.eqZero, PyVal.pdIsna]
  · simp [safe_div, PyVal.eqZero, PyVal.pdIsna, PyVal.npIsinf]
  · simp [safe_div, PyVal.eqZero, PyVal.pdIsna, PyVal.npIsinf]
  · simp [safe_div, PyVal.eqZero, PyVal.pdIsna, PyVal.npIsinf]
  · cases d with
    | num q =>
      by_cases hq : q = 0 <;>
        simp [safe_div, PyVal.eqZero, PyVal.pdIsna, PyVal.npIsinf,
          PyVal.pyDiv, hq]
    | nan => simp [safe_div, PyVal.eqZero, PyVal.pdIsna]
    | inf => simp [safe_div, PyVal.eqZero, PyVal.pdIsna, PyVal.npIsinf]
    | ninf => simp [safe_div, PyVal.eqZero, PyVal.pdIsna, PyVal.npIsinf]
    | obj => simp [safe_div, PyVal.eqZero, PyVal.pdIsna, PyVal.npIsinf]
  · by_cases hb : b = 0 <;>
      simp [safe_div, PyVal.eqZero, PyVal.pdIsna, PyVal.npIsinf,
        PyVal.pyDiv, hb]
  · by_cases hb : b = 0
    · simp [safe_div, PyVal.eqZero, hb]
    · by_cases hbl : b < 0 <;>
        simp [safe_div, PyVal.eqZero, PyVal.pdIsna, PyVal.npIsinf,
          PyVal.pyDiv, hb, hbl]
  · by_cases hb : b = 0
    · simp [safe_div, PyVal.eqZero, hb]
    · by_cases hbl : b < 0 <;>
        simp [safe_div, PyVal.eqZero, PyVal.pdIsna, PyVal.npIsinf,
          PyVal.pyDiv, hb, hbl]
  · intro hb
    simp [safe_div, PyVal.eqZero, PyVal.pdIsna, PyVal.npIsinf,
      PyVal.pyDiv, hb]

/-- C5 (witness): concrete instances — `safe_div(3, 0, 7) = 7`,
`safe_div(3, NaN, 7) = 7`, `safe_div(NaN, 2, 7) = 7`, and a plain division
`safe_div(3, 2, 7) = 1.5`. -/
theorem c5_safe_div_witness :
    safe_div (.num 3) (.num 0) (.num 7) = .num 7 ∧
    safe_div (.num 3) .nan (.num 7) = .num 7 ∧
    safe_div .nan (.num 2) (.num 7) = .num 7 ∧
    safe_div (.num 3) (.num 2) (.num 7) = .num (3 / 2) :=
  ⟨(c5_safe_div (.num 3) (.num 0) (.num 7) 0 0).1,
   (c5_safe_div (.num 3) (.num 0) (.num 7) 0 0).2.1,
   (c5_safe_div (.num 3) (.num 0) (.num 7) 0 2).2.2.2.2.2.2.1,
   (c5_safe_div (.num 3) (.num 0) (.num 7) 3 2).2.2.2.2.2.2.2.2.2
     (by norm_num)⟩

/-- C1 (counterexample): with a curve built from a legal record whose CTR is 0
(a keyword with zero clicks), the lookup at position 1 returns the bucket's
mean CTR, which is 0 — not a value strictly greater than 0. -/
theorem c1_lookup_counterexample :
    get_ctr_for_position (some (calculate_ctr_by_position dfZeroCtr).2) 1
        = PyVal.num 0 ∧ ¬ (0 : ℚ) < 0 := by
  refine ⟨?_, by norm_num⟩
  rw [get_ctr_built]
  norm_num [dfZeroCtr, lookupBucket, bucketStats, bucketMembers, cutBucket,
    pyRoundQ, roundHalfEven]

/-- C1 (amended): the `(0, 1]` guarantee holds only in the no-curve state
(built-in default table).  Once a curve has been built, the lookup returns the
covering bucket's mean CTR: a value in `[0, 1]` — possibly exactly 0 — when
the bucket has members with CTRs in `[0, 1]`, and NaN when the bucket is
empty (the pandas mean of an empty categorical group).  Only when the bucket
row is absent from the curve altogether does the `0.01` fallback apply. -/
theorem c1_lookup_amended :
    (∀ p : ℚ, ∃ q : ℚ,
      get_ctr_for_position none p = .num q ∧ 0 < q ∧ q ≤ 1) ∧
    (∀ (df : DataFrame) (p : ℚ),
      (∀ r ∈ df.rows, 0 ≤ r.ctr ∧ r.ctr ≤ 1) →
      (bucketMembers df.rows (lookupBucket p) = [] →
        get_ctr_for_position (some (calculate_ctr_by_position df).2) p
          = .nan) ∧
      (bucketMembers df.rows (lookupBucket p) ≠ [] →
        ∃ q : ℚ,
          get_ctr_for_position (some (calculate_ctr_by_position df).2) p
              = .num q ∧ 0 ≤ q ∧ q ≤ 1)) ∧
    (∀ (stats : List (Bucket × BucketStats)) (p : ℚ),
      stats.find? (fun e => decide (e.1 = lookupBucket p)) = none →
      get_ctr_for_position (some stats) p = .num (1/100)) := by
  refine ⟨?_, ?_, ?_⟩
  · intro p
    exact ⟨defaultCtr p, rfl, defaultCtr_mem_Ioc p⟩
  · intro df p hctr
    constructor
    · intro hempty
      rw [get_ctr_built]
      simp [bucketStats, hempty]
    · intro hne
      rw [get_ctr_built]
      set ms := bucketMembers df.rows (lookupBucket p) with hms
      have hlen : ms.length ≠ 0 := fun h => hne (List.length_eq_zero.mp h)
      have hlenpos : (0 : ℚ) < ms.length := by
        have : 0 < ms.length := Nat.pos_of_ne_zero hlen
        exact_mod_cast this
      have hmem : ∀ x ∈ ms.map (fun r => r.ctr), 0 ≤ x ∧ x ≤ 1 := by
        intro x hx
        rcases List.mem_map.mp hx with ⟨r, hr, hxr⟩
        have hrrows : r ∈ df.rows := by
          rw [hms] at hr
          exact List.mem_of_mem_filter hr
        rw [← hxr]
        exact hctr r hrrows
      have hsum0 : 0 ≤ (ms.map (fun r => r.ctr)).sum :=
        list_sum_nonneg (fun x hx => (hmem x hx).1)
      have hsum1 : (ms.map (fun r => r.ctr)).sum ≤ (ms.length : ℚ) := by
        have h := list_sum_le_length (l := ms.map (fun r => r.ctr))
          (fun x hx => (hmem x hx).2)
        simpa using h
      have hmean0 : 0 ≤ (ms.map (fun r => r.ctr)).sum / (ms.length : ℚ) :=
        div_nonneg hsum0 (le_of_lt hlenpos)
      have hmean1 : (ms.map (fun r => r.ctr)).sum / (ms.length : ℚ) ≤ 1 :=
        (div_le_one hlenpos).mpr hsum1
      have hround := pyRoundQ_mem_unit 4 hmean0 hmean1
      refine ⟨pyRoundQ ((ms.map (fun r => r.ctr)).sum / (ms.length : ℚ)) 4,
        ?_, hround.1, hround.2⟩
      simp [bucketStats, ← hms, hlen]
  · intro stats p hfind
    simp [get_ctr_for_position, hfind]

/-- C1 (witness): the default table at position 1 is in `(0,1]`; for the
one-row table, position 5 hits the populated bucket (mean in `[0,1]`),
position 2 hits an empty bucket (NaN), and an empty curve list yields the
`0.01` fallback. -/
theorem c1_lookup_amended_witness :
    (∃ q : ℚ, get_ctr_for_position none 1 = .num q ∧ 0 < q ∧ q ≤ 1) ∧
    get_ctr_for_position (some (calculate_ctr_by_position dfOneRow).2) 2
        = .nan ∧
    (∃ q : ℚ,
      get_ctr_for_position (some (calculate_ctr_by_position dfOneRow).2) 5
          = .num q ∧ 0 ≤ q ∧ q ≤ 1) ∧
    get_ctr_for_position (some []) 1 = .num (1/100) := by
  have hctr : ∀ r ∈ dfOneRow.rows, 0 ≤ r.ctr ∧ r.ctr ≤ 1 := by
    intro r hr
    simp only [dfOneRow, List.mem_singleton] at hr
    subst hr
    norm_num
  have hb2 : lookupBucket 2 = Bucket.b2 := by norm_num [lookupBucket]
  have hb5 : lookupBucket 5 = Bucket.b5 := by norm_num [lookupBucket]
  have hcut : cutBucket 5 = some Bucket.b5 := by norm_num [cutBucket]
  refine ⟨c1_lookup_amended.1 1, ?_, ?_, ?_⟩
  · refine (c1_lookup_amended.2.1 dfOneRow 2 hctr).1 ?_
    rw [hb2]
    simp [bucketMembers, dfOneRow, hcut]
  · refine (c1_lookup_amended.2.1 dfOneRow 5 hctr).2 ?_
    rw [hb5]
    simp [bucketMembers, dfOneRow, hcut]
  · exact c1_lookup_amended.2.2 [] 1 rfl

/-- The post-call state of the input frame is the curve build's mutation,
whether or not the aggregate step subsequently raises. -/
theorem forecast_performance_fst (df : DataFrame) (d : ℕ) (a : ℚ) :
    (forecast_performance df d a).1 = (calculate_ctr_by_position df).1 := by
  by_cases h :
    (forecast_keywords df (actualImprovement d a)
      (calculate_ctr_by_position df).2).isEmpty <;>
    simp [forecast_performance, h]

/-- C6 (counterexample): `forecast_performance` does not leave the input table
unchanged — on a concrete one-row table the frame observed after the call
differs from the frame passed in (the curve build wrote the
`Position_Bucket` and `Weighted_CTR` columns into it). -/
theorem c6_no_mutation_counterexample :
    (forecast_performance dfOneRow 90 5).1 ≠ dfOneRow := by
  rw [forecast_performance_fst]
  intro h
  have hcol := congrArg DataFrame.positionBucket h
  simp [calculate_ctr_by_position, dfOneRow] at hcol

/-- C6 (amended): the forecast never changes the existing fields of the input
— every row and the CPC column are preserved — but it does extend the
caller's frame with the two derived helper columns `Position_Bucket` and
`Weighted_CTR`, so the observed table equals the input plus those columns. -/
theorem c6_mutation_amended :
    ∀ (df : DataFrame) (d : ℕ) (a : ℚ),
      ((forecast_performance df d a).1).rows = df.rows ∧
      ((forecast_performance df d a).1).cpc = df.cpc ∧
      ((forecast_performance df d a).1).positionBucket
        = some (df.rows.map (fun r => cutBucket r.currentPosition)) ∧
      ((forecast_performance df d a).1).weightedCtr
        = some (df.rows.map (fun r => r.ctr * r.searchVolume)) := by
  intro df d a
  refine ⟨?_, ?_, ?_, ?_⟩ <;> rw [forecast_performance_fst] <;> rfl

/-- C7 (counterexample): the curve built from a one-row table (position 5) is
not restricted to populated buckets: it carries a row for bucket `2` even
though that bucket has zero members (its entry has NaN mean and count 0). -/
theorem c7_bucket_counterexample :
    (Bucket.b2, (⟨.nan, 0, 0⟩ : BucketStats))
        ∈ (calculate_ctr_by_position dfOneRow).2 ∧
    bucketMembers dfOneRow.rows Bucket.b2 = [] := by
  have hcut : cutBucket 5 = some Bucket.b5 := by norm_num [cutBucket]
  have hmem : bucketMembers dfOneRow.rows Bucket.b2 = [] := by
    simp [bucketMembers, dfOneRow, hcut]
  refine ⟨?_, hmem⟩
  have hstats : bucketStats dfOneRow.rows Bucket.b2 = ⟨.nan, 0, 0⟩ := by
    simp [bucketStats, hmem, safe_divQ, pyRoundQ, roundHalfEven]
  rw [← hstats]
  exact List.mem_map_of_mem _ (by simp [allBuckets])

/-- C7 (amended): with the pandas default `observed=False`, the built curve
has exactly one row per bucket label — 15 in all, populated or not.  Each
bucket's row carries the bucket's member count, and its mean is NaN precisely
when the bucket has zero members (a populated bucket carries its finite CTR
statistics). -/
theorem c7_bucket_amended :
    ∀ (df : DataFrame) (b : Bucket),
      ((calculate_ctr_by_position df).2).length = 15 ∧
      ∃ s : BucketStats,
        (b, s) ∈ (calculate_ctr_by_position df).2 ∧
        s.count = (bucketMembers df.rows b).length ∧
        (s.count = 0 ↔ s.mean = .nan) := by
  intro df b
  constructor
  · simp [calculate_ctr_by_position, allBuckets]
  · refine ⟨bucketStats df.rows b, ?_, rfl, ?_⟩
    · exact List.mem_map_of_mem _ (by cases b <;> simp [allBuckets])
    · by_cases hl : (bucketMembers df.rows b).length = 0 <;>
        simp [bucketStats, hl]

/-- C8: the forecast is deterministic — it is a pure function of exactly
`(records, horizon_days, avg_improvement)`.  The embedding is a function
because the source contains no randomness or hidden state: the curve is
rebuilt from the passed records on every call and no random perturbation is
applied anywhere in the pipeline, so identical inputs give identical
`ForecastResult`s. -/
theorem c8_determinism :
    ∀ (df : DataFrame) (d : ℕ) (a : ℚ),
      forecast_performance df d a = forecast_performance df d a :=
  fun _ _ _ => rfl

theorem roundHalfEven_intCast (n : ℤ) : roundHalfEven (n : ℚ) = n := by
  unfold roundHalfEven
  rw [Int.floor_intCast]
  rw [if_pos]
  norm_num

theorem roundHalfEven_eval {q : ℚ} {n : ℤ} (h1 : (n : ℚ) ≤ q)
    (h2 : q < (n : ℚ) + 1/2) : roundHalfEven q = n := by
  have hf : ⌊q⌋ = n := by
    rw [Int.floor_eq_iff]
    constructor
    · exact h1
    · linarith
  unfold roundHalfEven
  rw [hf, if_pos]
  linarith

theorem sanitizePy_ok {v : PyVal} (repl : ℚ) (h : v ≠ .obj) :
    sanitizePy v (.num repl) = .ok (.num (replaceInvalid v repl)) := by
  cases v <;>
    simp_all [sanitizePy, PyVal.pdIsna, PyVal.npIsinf, replaceInvalid]

theorem dictGet_ne_obj {m : List (String × PyVal)}
    (hm : ∀ e ∈ m, e.2 ≠ PyVal.obj) (k : String) {d : PyVal}
    (hd : d ≠ PyVal.obj) : dictGet m k d ≠ PyVal.obj := by
  unfold dictGet
  cases hfind : m.reverse.find? (fun e => decide (e.1 = k)) with
  | none => exact hd
  | some e =>
    exact hm e (List.mem_reverse.mp (List.mem_of_find?_eq_some hfind))

/-- The real-CPC accumulation loop, on obj-free inputs, computes the sum of
per-row sanitized products. -/
theorem tvLoopReal_eq (m : List (String × PyVal))
    (hm : ∀ e ∈ m, e.2 ≠ PyVal.obj) :
    ∀ rows : List ForecastRow, (∀ r ∈ rows, r.projectedClicks ≠ PyVal.obj) →
      ∀ s : ℚ,
        tvLoopReal m rows (.num s)
          = .ok (.num (s + (rows.map (fun r =>
              replaceInvalid r.projectedClicks 0 *
              replaceInvalid (dictGet m r.keyword (.num (5/10)))
                (5/10))).sum)) := by
  intro rows
  induction rows with
  | nil => intro _ s; simp [tvLoopReal]
  | cons r rest ih =>
    intro hobj s
    have hcpc : dictGet m r.keyword (.num (5/10)) ≠ PyVal.obj :=
      dictGet_ne_obj hm r.keyword (by simp)
    have hclicks : r.projectedClicks ≠ PyVal.obj :=
      hobj r (List.mem_cons_self r rest)
    have hstep :
        tvLoopReal m (r :: rest) (.num s)
          = tvLoopReal m rest
              (.num (s + replaceInvalid r.projectedClicks 0 *
                replaceInvalid (dictGet m r.keyword (.num (5/10))) (5/10))) := by
      simp [tvLoopReal, sanitizePy_ok _ hcpc, sanitizePy_ok _ hclicks,
        PyVal.pfAdd, PyVal.pfMul]
    rw [hstep, ih (fun x hx => hobj x (List.mem_cons_of_mem r hx))]
    simp [List.sum_cons, add_assoc]

/-- The volume-tier accumulation loop, on obj-free clicks, computes the sum of
sanitized clicks times the tier CPC. -/
theorem tvLoopVol_eq :
    ∀ rows : List ForecastRow, (∀ r ∈ rows, r.projectedClicks ≠ PyVal.obj) →
      ∀ s : ℚ,
        tvLoopVol rows (.num s)
          = .ok (.num (s + (rows.map (fun r =>
              replaceInvalid r.projectedClicks 0 *
                tierCpc r.searchVolume)).sum)) := by
  intro rows
  induction rows with
  | nil => intro _ s; simp [tvLoopVol]
  | cons r rest ih =>
    intro hobj s
    have hclicks : r.projectedClicks ≠ PyVal.obj :=
      hobj r (List.mem_cons_self r rest)
    have hstep :
        tvLoopVol (r :: rest) (.num s)
          = tvLoopVol rest
              (.num (s + replaceInvalid r.projectedClicks 0 *
                tierCpc r.searchVolume)) := by
      simp [tvLoopVol, sanitizePy_ok _ hclicks, PyVal.pfAdd, PyVal.pfMul]
    rw [hstep, ih (fun x hx => hobj x (List.mem_cons_of_mem r hx))]
    simp [List.sum_cons, add_assoc]

/-- C9: the traffic-value computation is total — any exception inside the body
is caught and 0 returned — and on inputs free of the `TypeError` corner it
sums `clicks × cpc` with every invalid intermediate replaced (a missing, NaN,
or infinite CPC becomes 0.5; NaN or infinite projected clicks become 0; in the
volume-tier branch the CPC comes from the tier schedule), returning the total
rounded to the nearest integer. -/
theorem c9_traffic_value :
    ∀ (kf : List ForecastRow) (odf : DataFrame),
      (trafficValueInner kf odf = .error () →
        calculate_traffic_value kf odf = .num 0) ∧
      (hasRealCpc odf = true →
        (∀ e ∈ cpcMap odf, e.2 ≠ PyVal.obj) →
        (∀ r ∈ kf, r.projectedClicks ≠ PyVal.obj) →
        calculate_traffic_value kf odf
          = .num (pyRoundQ ((kf.map (fun r =>
              replaceInvalid r.projectedClicks 0 *
              replaceInvalid (dictGet (cpcMap odf) r.keyword (.num (5/10)))
                (5/10))).sum) 0)) ∧
      (hasRealCpc odf = false →
        (∀ r ∈ kf, r.projectedClicks ≠ PyVal.obj) →
        calculate_traffic_value kf odf
          = .num (pyRoundQ ((kf.map (fun r =>
              replaceInvalid r.projectedClicks 0 *
                tierCpc r.searchVolume)).sum) 0)) := by
  intro kf odf
  refine ⟨?_, ?_, ?_⟩
  · intro herr
    simp [calculate_traffic_value, herr]
  · intro hreal hm hk
    have hloop := tvLoopReal_eq (cpcMap odf) hm kf hk 0
    simp [calculate_traffic_value, trafficValueInner, hreal, hloop,
      PyVal.npIsinf, PyVal.pdIsna, pfRound]
  · intro hreal hk
    have hloop := tvLoopVol_eq kf hk 0
    simp [calculate_traffic_value, trafficValueInner, hreal, hloop,
      PyVal.npIsinf, PyVal.pdIsna, pfRound]

/-- C9 (witness): a table with a genuine CPC column where keyword `a` has NaN
CPC and NaN projected clicks and keyword `b` has CPC 2 and 3 projected clicks:
the total is `0*0.5 + 3*2 = 6`. -/
theorem c9_traffic_value_witness :
    hasRealCpc dfCpc = true ∧
    calculate_traffic_value [frowNanClicks, frowThreeClicks] dfCpc
      = .num 6 := by
  have hreal : hasRealCpc dfCpc = true := by
    simp [hasRealCpc, dfCpc, PyVal.pdIsna]
  have hmap : cpcMap dfCpc = [("a", .nan), ("b", .num 2)] := rfl
  have hm : ∀ e ∈ cpcMap dfCpc, e.2 ≠ PyVal.obj := by
    rw [hmap]
    intro e he
    rcases List.mem_cons.mp he with h | h
    · subst h; simp
    · rcases List.mem_cons.mp h with h2 | h2
      · subst h2; simp
      · simp at h2
  have hk : ∀ r ∈ [frowNanClicks, frowThreeClicks],
      r.projectedClicks ≠ PyVal.obj := by
    intro r hr
    rcases List.mem_cons.mp hr with h | h
    · subst h; simp [frowNanClicks]
    · rcases List.mem_cons.mp h with h2 | h2
      · subst h2; simp [frowThreeClicks]
      · simp at h2
  have h :=
    (c9_traffic_value [frowNanClicks, frowThreeClicks] dfCpc).2.1 hreal hm hk
  rw [h]
  have hda : dictGet (cpcMap dfCpc) "a" (.num (5/10)) = .nan := by
    rw [hmap]; rfl
  have hdb : dictGet (cpcMap dfCpc) "b" (.num (5/10)) = .num 2 := by
    rw [hmap]; rfl
  have hsum :
      (([frowNanClicks, frowThreeClicks]).map (fun r =>
          replaceInvalid r.projectedClicks 0 *
          replaceInvalid (dictGet (cpcMap dfCpc) r.keyword (.num (5/10)))
            (5/10))).sum = 6 := by
    simp [frowNanClicks, frowThreeClicks, hda, hdb, replaceInvalid]
    norm_num
  rw [hsum]
  have h6 : pyRoundQ 6 0 = 6 := by
    have hcast : (6 : ℚ) * 10 ^ (0:ℕ) = ((6 : ℤ) : ℚ) := by norm_num
    rw [pyRoundQ, hcast, roundHalfEven_intCast]
    norm_num
  rw [h6]
  exact ⟨hreal, rfl⟩

/-- On a nonempty table the aggregate step does not raise and the forecast
returns the assembled result record. -/
theorem forecast_performance_ok (df : DataFrame) (d : ℕ) (a : ℚ)
    (hne : df.rows ≠ []) :
    (forecast_performance df d a).2 =
      Except.ok
        (let kf := forecast_keywords df (actualImprovement d a)
            (calculate_ctr_by_position df).2
         let totals := calculate_aggregate_metrics kf
         { keyword_forecasts := kf
           total_projected_clicks := totals.total_projected_clicks
           total_current_clicks := totals.total_current_clicks
           clicks_increase_pct := totals.clicks_increase_pct
           traffic_value :=
             calculate_traffic_value kf (calculate_ctr_by_position df).1
           keywords_top_10 := totals.keywords_top_10
           top10_increase := totals.top10_increase
           value_increase_pct := totals.value_increase_pct }) := by
  have hkf : (forecast_keywords df (actualImprovement d a)
      (calculate_ctr_by_position df).2).isEmpty = false := by
    cases hrows : df.rows with
    | nil => exact absurd hrows hne
    | cons r t => simp [forecast_keywords, hrows]
  simp [forecast_performance, hkf]
/-- C10: the aggregate click totals are the pandas column sums of the
per-keyword click values that were already rounded to the nearest integer
(`round(search_volume × ctr, 0)` per row), cast to `int` — not sums of the
unrounded products — and on a concrete table the aggregate differs from the
exact sum of the raw per-keyword products. -/
theorem c10_aggregates :
    (∀ (df : DataFrame) (d : ℕ) (a : ℚ), df.rows ≠ [] →
      ∃ res, (forecast_performance df d a).2 = .ok res ∧
        res.total_current_clicks
          = pyInt (sumSkipNa ((forecast_keywords df (actualImprovement d a)
              (calculate_ctr_by_position df).2).map
                (fun r => r.currentClicks))) ∧
        res.total_projected_clicks
          = pyInt (sumSkipNa ((forecast_keywords df (actualImprovement d a)
              (calculate_ctr_by_position df).2).map
                (fun r => r.projectedClicks))) ∧
        (forecast_keywords df (actualImprovement d a)
            (calculate_ctr_by_position df).2).map (fun r => r.currentClicks)
          = df.rows.map (fun r =>
              pfRound (PyVal.pfMul (.num r.searchVolume)
                (get_ctr_for_position (some (calculate_ctr_by_position df).2)
                  r.currentPosition)) 0) ∧
        (forecast_keywords df (actualImprovement d a)
            (calculate_ctr_by_position df).2).map (fun r => r.projectedClicks)
          = df.rows.map (fun r =>
              pfRound (PyVal.pfMul (.num r.searchVolume)
                (get_ctr_for_position (some (calculate_ctr_by_position df).2)
                  (projectedPosition (actualImprovement d a)
                    r.currentPosition))) 0)) ∧
    (∃ res, (forecast_performance dfRoundGap 360 10).2 = .ok res ∧
      res.total_current_clicks = 0 ∧
      (dfRoundGap.rows.map (fun r =>
          (PyVal.pfMul (.num r.searchVolume)
            (get_ctr_for_position
              (some (calculate_ctr_by_position dfRoundGap).2)
              r.currentPosition)).toQ)).sum = 3/5 ∧
      ((res.total_current_clicks : ℚ) ≠ (dfRoundGap.rows.map (fun r =>
          (PyVal.pfMul (.num r.searchVolume)
            (get_ctr_for_position
              (some (calculate_ctr_by_position dfRoundGap).2)
              r.currentPosition)).toQ)).sum)) := by
  have hmaps : ∀ (df : DataFrame) (d : ℕ) (a : ℚ),
      (forecast_keywords df (actualImprovement d a)
          (calculate_ctr_by_position df).2).map (fun r => r.currentClicks)
        = df.rows.map (fun r =>
            pfRound (PyVal.pfMul (.num r.searchVolume)
              (get_ctr_for_position (some (calculate_ctr_by_position df).2)
                r.currentPosition)) 0) := by
    intro df d a
    rw [forecast_keywords, List.map_map]
    rfl
  have hmapsP : ∀ (df : DataFrame) (d : ℕ) (a : ℚ),
      (forecast_keywords df (actualImprovement d a)
          (calculate_ctr_by_position df).2).map (fun r => r.projectedClicks)
        = df.rows.map (fun r =>
            pfRound (PyVal.pfMul (.num r.searchVolume)
              (get_ctr_for_position (some (calculate_ctr_by_position df).2)
                (projectedPosition (actualImprovement d a)
                  r.currentPosition))) 0) := by
    intro df d a
    rw [forecast_keywords, List.map_map]
    rfl
  constructor
  · intro df d a hne
    exact ⟨_, forecast_performance_ok df d a hne, rfl, rfl,
      hmaps df d a, hmapsP df d a⟩
  · have hne : dfRoundGap.rows ≠ [] := by simp [dfRoundGap]
    have hrows : dfRoundGap.rows
        = [⟨"a", 1, 1, 3/10⟩, ⟨"b", 1, 1, 3/10⟩] := rfl
    have hb1 : lookupBucket 1 = Bucket.b1 := by norm_num [lookupBucket]
    have hcut : cutBucket 1 = some Bucket.b1 := by norm_num [cutBucket]
    have hmem : bucketMembers dfRoundGap.rows Bucket.b1 = dfRoundGap.rows := by
      simp [bucketMembers, dfRoundGap, hcut]
    have hr4 : pyRoundQ (3/10) 4 = 3/10 := by
      have hcast : ((3:ℚ)/10) * 10 ^ (4:ℕ) = ((3000 : ℤ) : ℚ) := by norm_num
      rw [pyRoundQ, hcast, roundHalfEven_intCast]
      norm_num
    have hctr1 :
        get_ctr_for_position
          (some (calculate_ctr_by_position dfRoundGap).2) 1
          = .num (3/10) := by
      rw [get_ctr_built, hb1]
      simp only [bucketStats]
      rw [hmem, hrows]
      norm_num [hr4]
    have hr0 : pyRoundQ (3/10) 0 = 0 := by
      have h0 : roundHalfEven ((3/10 : ℚ) * 10 ^ (0:ℕ)) = 0 := by
        apply roundHalfEven_eval (n := 0) <;> norm_num
      rw [pyRoundQ, h0]
      norm_num
    have hcc : (forecast_keywords dfRoundGap (actualImprovement 360 10)
        (calculate_ctr_by_position dfRoundGap).2).map
          (fun r => r.currentClicks) = [.num 0, .num 0] := by
      rw [hmaps dfRoundGap 360 10, hrows]
      simp only [List.map_cons, List.map_nil]
      rw [hctr1]
      simp [PyVal.pfMul, pfRound, one_mul, hr0]
    have htotal : pyInt (sumSkipNa ((forecast_keywords dfRoundGap
        (actualImprovement 360 10)
        (calculate_ctr_by_position dfRoundGap).2).map
          (fun r => r.currentClicks))) = 0 := by
      rw [hcc]
      have hs : sumSkipNa [.num 0, .num 0] = 0 := by
        simp [sumSkipNa, List.filterMap_cons]
      rw [hs]
      norm_num [pyInt]
    have hraw : (dfRoundGap.rows.map (fun r =>
        (PyVal.pfMul (.num r.searchVolume)
          (get_ctr_for_position
            (some (calculate_ctr_by_position dfRoundGap).2)
            r.currentPosition)).toQ)).sum = 3/5 := by
      rw [hrows]
      simp only [List.map_cons, List.map_nil]
      rw [hctr1]
      norm_num [PyVal.pfMul, PyVal.toQ]
    obtain ⟨res, h1, h2, h3⟩ :
        ∃ res, (forecast_performance dfRoundGap 360 10).2 = .ok res ∧
          res.total_current_clicks = 0 ∧
          (dfRoundGap.rows.map (fun r =>
              (PyVal.pfMul (.num r.searchVolume)
                (get_ctr_for_position
                  (some (calculate_ctr_by_position dfRoundGap).2)
                  r.currentPosition)).toQ)).sum = 3/5 :=
      ⟨_, forecast_performance_ok dfRoundGap 360 10 hne, htotal, hraw⟩
    refine ⟨res, h1, h2, h3, ?_⟩
    rw [h2, h3]
    norm_num

/-- C10 (witness): the universal part applied to the concrete one-row table,
with its nonemptiness hypothesis discharged. -/
theorem c10_aggregates_witness :
    dfOneRow.rows ≠ [] ∧
    ∃ res, (forecast_performance dfOneRow 90 5).2 = .ok res ∧
      res.total_current_clicks
        = pyInt (sumSkipNa ((forecast_keywords dfOneRow
            (actualImprovement 90 5)
            (calculate_ctr_by_position dfOneRow).2).map
              (fun r => r.currentClicks))) := by
  have hne : dfOneRow.rows ≠ [] := by simp [dfOneRow]
  obtain ⟨res, h1, h2, _⟩ := c10_aggregates.1 dfOneRow 90 5 hne
  exact ⟨hne, res, h1, h2⟩
